import Mathlib

/-!
Verification development for the IoTDeviceManager repository.

The Lean definitions below are a shallow embedding of the Python sources:
device_types.py (device type registry, cumulative kWh), device_manager.py
(DeviceManager), and mqtt_client.py (CumulocityMqttClient).  Dictionaries are
modelled as functions into Option, OS processes as a map from device id to the
liveness flag of the recorded handle, and the persisted JSON files as explicit
state components.  Fallible effects (process spawn, broker acknowledgement)
are modelled by boolean oracles passed to the operations.
-/

namespace IoT

/-! ## device_types.py: registry -/

/-- DeviceTypeRegistry.get_device_type projected to the type_id used for
naming.  The registry holds PV, Heat Pump and Main Grid; an unknown name
raises ValueError in the source, modelled as none. -/
def getTypeId (type_name : String) : Option String :=
  if type_name = "PV" then some "pv"
  else if type_name = "Heat Pump" then some "heatpump"
  else if type_name = "Main Grid" then some "maingrid"
  else none

/-- Boolean test that the pattern list is an initial segment of the
second list, used to embed str.startswith. -/
def charsStart : List Char → List Char → Bool
  | [], _ => true
  | _ :: _, [] => false
  | p :: ps, c :: cs => p == c && charsStart ps cs

/-- str.startswith for the embedding. -/
def strStart (pattern s : String) : Bool :=
  charsStart pattern.data s.data

/-- DeviceTypeRegistry.get_type_name_from_id: scans the registry in insertion
order and returns the first type whose type_id is a prefix of the device id,
defaulting to the string Unknown. -/
def get_type_name_from_id (device_id : String) : String :=
  if strStart "pv" device_id then "PV"
  else if strStart "heatpump" device_id then "Heat Pump"
  else if strStart "maingrid" device_id then "Main Grid"
  else "Unknown"

/-! ## Decimal rendering of counters (Python format {:03d}) -/

/-- Little-endian decimal digits with explicit structural fuel, so that the
kernel can evaluate it. -/
def natDigitsAux : ℕ → ℕ → List ℕ
  | _, 0 => []
  | 0, _ + 1 => []
  | fuel + 1, n + 1 => (n + 1) % 10 :: natDigitsAux fuel ((n + 1) / 10)

/-- Little-endian decimal digits of a natural number. -/
def natDigits (n : ℕ) : List ℕ := natDigitsAux n n

/-- The zero-padded decimal rendering f-string {:03d} of a counter. -/
def pad3 (n : ℕ) : String :=
  ⟨List.replicate (3 - (natDigits n).length) '0' ++ (natDigits n).reverse.map Nat.digitChar⟩

/-- Numeric value of a decimal digit character. -/
def charVal (c : Char) : ℕ := c.toNat - 48

/-- Decoder for pad3: reads the rendered string back as a number, ignoring
the zero padding. -/
def unpad3 (s : String) : ℕ :=
  Nat.ofDigits 10 (s.data.map charVal).reverse

lemma natDigitsAux_eq (fuel n : ℕ) (h : n ≤ fuel) :
    natDigitsAux fuel n = Nat.digits 10 n := by
  induction fuel generalizing n with
  | zero =>
    interval_cases n
    simp [natDigitsAux]
  | succ fuel ih =>
    cases n with
    | zero => simp [natDigitsAux]
    | succ m =>
      rw [natDigitsAux, ih _ (by
        have := Nat.div_lt_self (Nat.succ_pos m) (by norm_num : (1:ℕ) < 10)
        omega)]
      rw [Nat.digits_def' (by norm_num : (1:ℕ) < 10) (Nat.succ_pos m)]

lemma natDigits_eq (n : ℕ) : natDigits n = Nat.digits 10 n :=
  natDigitsAux_eq n n le_rfl

lemma charVal_digitChar {d : ℕ} (h : d < 10) : charVal (Nat.digitChar d) = d := by
  interval_cases d <;> rfl

lemma ofDigits_replicate_zero (k : ℕ) : Nat.ofDigits 10 (List.replicate k 0) = 0 := by
  induction k with
  | zero => simp [Nat.ofDigits]
  | succ k ih => simp [List.replicate_succ, Nat.ofDigits_cons, ih]

lemma unpad3_pad3 (n : ℕ) : unpad3 (pad3 n) = n := by
  have hlt : ∀ d ∈ natDigits n, d < 10 := by
    intro d hd
    rw [natDigits_eq] at hd
    exact Nat.digits_lt_base (by norm_num) hd
  unfold unpad3 pad3
  simp only [List.map_append, List.map_replicate]
  have h0 : charVal '0' = 0 := rfl
  rw [h0]
  have hdig : ((natDigits n).reverse.map Nat.digitChar).map charVal = (natDigits n).reverse := by
    rw [List.map_map]
    refine (List.map_congr_left ?_).trans (List.map_id _)
    intro d hd
    exact charVal_digitChar (hlt d (List.mem_reverse.mp hd))
  rw [hdig, List.reverse_append, List.reverse_reverse, List.reverse_replicate]
  rw [Nat.ofDigits_append, ofDigits_replicate_zero, natDigits_eq, Nat.ofDigits_digits]
  ring

lemma pad3_injective : Function.Injective pad3 := by
  intro a b h
  have := congrArg unpad3 h
  rwa [unpad3_pad3, unpad3_pad3] at this

/-! ## device_manager.py: DeviceManager -/

/-- Pointwise update of a dictionary modelled as a function. -/
def updateFn {α : Type} (f : String → α) (k : String) (v : α) : String → α :=
  fun x => if x = k then v else f x

/-- models.py DeviceStatus. -/
structure DeviceStatus where
  device_id : String
  device_type : String
  status : String
  created_at : String
deriving DecidableEq, Repr

/-- One device entry of the persisted status file (the fields written by
DeviceManager._save_device_status). -/
structure PersistedDevice where
  device_type : String
  status : String
  created_at : String
deriving DecidableEq, Repr

/-- The state owned by device_manager.py DeviceManager, together with the
persisted status file and the optional SQL config store.
devices maps a device id to the liveness flag of its recorded Process
handle; has_db_config models hasattr(db, save_device_config). -/
structure DeviceManager where
  devices : String → Option Bool
  device_statuses : String → Option DeviceStatus
  device_counters : String → ℕ
  file_devices : String → Option PersistedDevice
  file_counters : String → ℕ
  has_db_config : Bool
  db_config : String → Option (String × String)

/-- DeviceManager._save_device_status: whole-file rewrite of the status file
from the in-memory dictionaries. -/
def save_device_status (s : DeviceManager) : DeviceManager :=
  { s with
    file_devices := fun d => (s.device_statuses d).map fun r =>
      ⟨r.device_type, r.status, r.created_at⟩,
    file_counters := s.device_counters }

/-- The guarded db.save_device_config call (only the PostgreSQL backend has
the method, hence the hasattr guard in the source); only the SQL config
rows change, and only when the backend offers the method. -/
def save_db_config (s : DeviceManager) (device_id device_type status : String) :
    DeviceManager :=
  { s with db_config :=
      if s.has_db_config then
        updateFn s.db_config device_id (some (device_type, status))
      else s.db_config }

/-- DeviceManager._generate_device_id: bump the per-type counter and render
the id, falling back to the dedicated unknown counter when the registry
raises ValueError. -/
def generate_device_id (counters : String → ℕ) (device_type : String) :
    (String → ℕ) × String :=
  match getTypeId device_type with
  | some type_id =>
    let counter := counters type_id + 1
    (updateFn counters type_id counter, type_id ++ pad3 counter)
  | none =>
    let counter := counters "unknown" + 1
    (updateFn counters "unknown" counter, "unknown" ++ pad3 counter)

/-- DeviceManager.add_device; now is the datetime.now() timestamp of the
created record. -/
def add_device (s : DeviceManager) (device_type now : String) :
    DeviceManager × String :=
  let p := generate_device_id s.device_counters device_type
  let device_id := p.2
  let s1 := { s with
    device_counters := p.1,
    device_statuses := updateFn s.device_statuses device_id
      (some ⟨device_id, device_type, "stopped", now⟩) }
  let s2 := save_db_config s1 device_id device_type "stopped"
  (save_device_status s2, device_id)

/-- DeviceManager.start_device; spawn_ok models whether Process(...).start()
succeeds (an exception there is reported as a false return with the state
unchanged). -/
def start_device (s : DeviceManager) (device_id : String) (spawn_ok : Bool) :
    DeviceManager × Bool :=
  if (s.devices device_id).getD false then (s, false)
  else if spawn_ok then
    let device_type := get_type_name_from_id device_id
    let s1 := { s with devices := updateFn s.devices device_id (some true) }
    let s2 := save_db_config s1 device_id device_type "active"
    (save_device_status s2, true)
  else (s, false)

/-- DeviceManager.stop_device.  The termination-signal escalation only acts
on the OS process; its state effect is the removal of the handle.  When the
id has no recorded handle the source logs, still writes the stopped status
to the SQL store when available, and returns false. -/
def stop_device (s : DeviceManager) (device_id : String) : DeviceManager × Bool :=
  match s.devices device_id with
  | none =>
    (save_db_config s device_id (get_type_name_from_id device_id) "stopped", false)
  | some _ =>
    let s1 := { s with devices := updateFn s.devices device_id none }
    let s2 := save_db_config s1 device_id (get_type_name_from_id device_id) "stopped"
    (save_device_status s2, true)

/-- DeviceManager.get_device_status: recomputes liveness from the handle map,
overwrites the stored record status in place and returns it; for an
unknown id it builds a fresh record (now being its datetime.now()
timestamp). -/
def get_device_status (s : DeviceManager) (device_id now : String) :
    DeviceManager × DeviceStatus :=
  let is_active := (s.devices device_id).getD false
  match s.device_statuses device_id with
  | some r =>
    let r1 := { r with status := if is_active then "active" else "stopped" }
    ({ s with device_statuses := updateFn s.device_statuses device_id (some r1) }, r1)
  | none =>
    (s, ⟨device_id, get_type_name_from_id device_id,
         if is_active then "active" else "stopped", now⟩)

/-- DeviceManager._load_device_status, restricted to the devices section:
every entry stored as active is rewritten to stopped while loading. -/
def load_device_statuses (file_devices : String → Option PersistedDevice) :
    String → Option DeviceStatus :=
  fun device_id => (file_devices device_id).map fun r =>
    ⟨device_id, r.device_type,
     if r.status = "active" then "stopped" else r.status, r.created_at⟩

/-- A session of consecutive add_device calls: each element is the requested
device type paired with the timestamp of the call. -/
def add_device_run (s : DeviceManager) : List (String × String) → List String
  | [] => []
  | c :: cs =>
    let p := add_device s c.1 c.2
    p.2 :: add_device_run p.1 cs

/-- The manager state before any device exists. -/
def emptyManager : DeviceManager :=
  ⟨fun _ => none, fun _ => none, fun _ => 0, fun _ => none, fun _ => 0,
   false, fun _ => none⟩

/-! ## Uniqueness of generated identifiers -/

/-- The type ids an identifier can be built from: the three registered type
ids and the fallback counter key. -/
def type_ids : List String := ["pv", "heatpump", "maingrid", "unknown"]

/-- The type id a device type name resolves to in _generate_device_id. -/
def resolved_type_id (device_type : String) : String :=
  (getTypeId device_type).getD "unknown"

lemma resolved_type_id_mem (device_type : String) :
    resolved_type_id device_type ∈ type_ids := by
  unfold resolved_type_id getTypeId
  split_ifs <;> simp [type_ids]

lemma generate_device_id_eq (counters : String → ℕ) (ty : String) :
    generate_device_id counters ty =
      (updateFn counters (resolved_type_id ty)
         (counters (resolved_type_id ty) + 1),
       resolved_type_id ty ++ pad3 (counters (resolved_type_id ty) + 1)) := by
  unfold generate_device_id resolved_type_id
  cases h : getTypeId ty <;> simp [h]

lemma type_id_append_inj {t1 t2 : String} (h1 : t1 ∈ type_ids)
    (h2 : t2 ∈ type_ids) {c1 c2 : ℕ}
    (h : t1 ++ pad3 c1 = t2 ++ pad3 c2) : t1 = t2 ∧ c1 = c2 := by
  have hd : t1.data ++ (pad3 c1).data = t2.data ++ (pad3 c2).data := by
    have := congrArg String.data h
    rwa [String.data_append, String.data_append] at this
  have finish : (pad3 c1).data = (pad3 c2).data → c1 = c2 := fun hp =>
    pad3_injective (String.ext hp)
  fin_cases h1 <;> fin_cases h2 <;>
    simp only [show ("pv" : String).data = ['p', 'v'] from rfl,
      show ("heatpump" : String).data = ['h', 'e', 'a', 't', 'p', 'u', 'm', 'p'] from rfl,
      show ("maingrid" : String).data = ['m', 'a', 'i', 'n', 'g', 'r', 'i', 'd'] from rfl,
      show ("unknown" : String).data = ['u', 'n', 'k', 'n', 'o', 'w', 'n'] from rfl,
      List.cons_append, List.nil_append, List.cons.injEq] at hd <;>
    simp_all

lemma save_db_config_counters (s : DeviceManager) (a b c : String) :
    (save_db_config s a b c).device_counters = s.device_counters := rfl

lemma add_device_counters (s : DeviceManager) (ty now : String) :
    (add_device s ty now).1.device_counters =
      updateFn s.device_counters (resolved_type_id ty)
        (s.device_counters (resolved_type_id ty) + 1) := by
  unfold add_device save_device_status
  rw [generate_device_id_eq]
  simp [save_db_config_counters]

lemma add_device_id (s : DeviceManager) (ty now : String) :
    (add_device s ty now).2 =
      resolved_type_id ty ++ pad3 (s.device_counters (resolved_type_id ty) + 1) := by
  unfold add_device
  rw [generate_device_id_eq]

lemma add_device_run_shape (cs : List (String × String)) (s : DeviceManager) :
    ∀ id ∈ add_device_run s cs,
      ∃ t c, t ∈ type_ids ∧ id = t ++ pad3 c ∧ s.device_counters t < c := by
  induction cs generalizing s with
  | nil => intro id h; simp [add_device_run] at h
  | cons c cs ih =>
    intro id h
    rw [add_device_run] at h
    rcases List.mem_cons.mp h with h | h
    · refine ⟨resolved_type_id c.1, s.device_counters (resolved_type_id c.1) + 1,
        resolved_type_id_mem c.1, ?_, Nat.lt_succ_self _⟩
      rw [h, add_device_id]
    · obtain ⟨t, n, ht, hid, hlt⟩ := ih (add_device s c.1 c.2).1 id h
      refine ⟨t, n, ht, hid, lt_of_le_of_lt ?_ hlt⟩
      rw [add_device_counters]
      simp only [updateFn]
      by_cases he : t = resolved_type_id c.1
      · subst he
        rw [if_pos rfl]
        exact Nat.le_succ _
      · rw [if_neg he]

lemma add_device_run_nodup (cs : List (String × String)) (s : DeviceManager) :
    (add_device_run s cs).Nodup := by
  induction cs generalizing s with
  | nil => simp [add_device_run]
  | cons c cs ih =>
    rw [add_device_run]
    refine List.nodup_cons.mpr ⟨?_, ih _⟩
    intro hmem
    obtain ⟨t, n, ht, hid, hlt⟩ := add_device_run_shape cs _ _ hmem
    rw [add_device_id] at hid
    obtain ⟨hteq, hceq⟩ := type_id_append_inj (resolved_type_id_mem c.1) ht hid
    rw [add_device_counters, ← hteq] at hlt
    unfold updateFn at hlt
    simp at hlt
    omega

/-! ## mqtt_client.py: CumulocityMqttClient -/

/-- The cumulocity_* keys that _mark_device_registered writes into a device
entry of the status file. -/
structure RegistrationEntry where
  cumulocity_registered : Bool
  cumulocity_device_name : String
  cumulocity_registered_at : String
deriving DecidableEq, Repr

/-- The observable state of a CumulocityMqttClient: connection and
registration flags, the reconnection bookkeeping, the registration
idempotency records of the status file, the outbound publishes
(topic, payload) in order, and the subscriptions made. -/
structure MqttClient where
  connected : Bool
  registered : Bool
  auto_reconnect : Bool
  reconnect_attempts : ℕ
  reconnect_delay : ℕ
  reg_file : String → Option RegistrationEntry
  published : List (String × String)
  subscriptions : List String

/-- mqtt_client.py: self.max_reconnect_attempts = 50. -/
def max_reconnect_attempts : ℕ := 50

/-- mqtt_client.py: self.max_reconnect_delay = 300. -/
def max_reconnect_delay : ℕ := 300

/-- A freshly constructed client (reconnect_delay 5, auto_reconnect on,
nothing published). -/
def mqttInit : MqttClient :=
  ⟨false, false, true, 0, 5, fun _ => none, [], []⟩

/-- _get_registration_status projected to its is_registered field: reads the
cumulocity_registered flag of the device entry, defaulting to false. -/
def get_registration_status (s : MqttClient) (device_id : String) : Bool :=
  match s.reg_file device_id with
  | some e => e.cumulocity_registered
  | none => false

/-- register_device.  The device_type argument is accepted but, as in the
source, never used: the registration payload hardcodes c8y_MQTTDevice.
ack_ok models result.rc == MQTT_ERR_SUCCESS for the registration publish;
now is the datetime.now() timestamp _mark_device_registered records. -/
def register_device (s : MqttClient) (device_id device_type device_name : String)
    (force_register : Bool) (ack_ok : Bool) (now : String) : MqttClient × Bool :=
  if force_register = false ∧ get_registration_status s device_id = true then
    ({ s with registered := true,
              subscriptions := s.subscriptions ++ ["s/ds"] }, true)
  else
    let s1 := { s with subscriptions := s.subscriptions ++ ["s/ds"] }
    let registration_msg := "100," ++ device_name ++ ",c8y_MQTTDevice"
    let s2 := { s1 with published := s1.published ++ [("s/us", registration_msg)] }
    if ack_ok then
      let s3 := { s2 with
        registered := true,
        reg_file := updateFn s2.reg_file device_id (some ⟨true, device_name, now⟩),
        published := s2.published ++
          [("s/us", "110," ++ device_id ++ ",IoT Simulator Model,v1.0"),
           ("s/us", "114,c8y_Restart,c8y_Configuration")] }
      (s3, true)
    else (s2, false)

/-- The exponential backoff delay computed inside one iteration of
_reconnect_loop. -/
def reconnect_backoff (s : MqttClient) : ℕ :=
  min (s.reconnect_delay * 2 ^ (s.reconnect_attempts - 1)) max_reconnect_delay

/-- The code after the while loop of _reconnect_loop: reaching the maximum
attempt count disables auto_reconnect. -/
def reconnect_finalize (s : MqttClient) : MqttClient :=
  if max_reconnect_attempts ≤ s.reconnect_attempts then
    { s with auto_reconnect := false }
  else s

/-- _reconnect_loop.  Each list element is the outcome of one
_attempt_reconnection call; the returned number counts the attempts made.
A successful attempt resets the counter and the backoff delay and leaves
the loop; the guard re-checks connected, auto_reconnect and the attempt
bound before every iteration. -/
def reconnect_loop (s : MqttClient) : List Bool → MqttClient × ℕ
  | [] => (reconnect_finalize s, 0)
  | ok :: rest =>
    if s.connected = false ∧ s.auto_reconnect = true ∧
        s.reconnect_attempts < max_reconnect_attempts then
      let s1 := { s with reconnect_attempts := s.reconnect_attempts + 1 }
      if ok then
        (reconnect_finalize
          { s1 with connected := true, reconnect_attempts := 0, reconnect_delay := 5 }, 1)
      else
        let r := reconnect_loop s1 rest
        (r.1, r.2 + 1)
    else (reconnect_finalize s, 0)

/-- _on_disconnect: clears connected and, for an unexpected disconnect
(rc different from 0), starts the reconnection thread only when
auto_reconnect is set and attempts remain; the boolean reports whether
the reconnection loop was started. -/
def on_disconnect (s : MqttClient) (rc : ℕ) : MqttClient × Bool :=
  let s1 := { s with connected := false }
  if rc ≠ 0 ∧ s1.auto_reconnect = true ∧
      s1.reconnect_attempts < max_reconnect_attempts then
    (s1, true)
  else (s1, false)

/-- enable_auto_reconnect: the external re-enable switch. -/
def enable_auto_reconnect (s : MqttClient) (enable : Bool) : MqttClient :=
  { s with auto_reconnect := enable }

/-! ## device_types.py: cumulative kWh

Python floats are modelled as exact rationals; the round(x, 6) of the source
becomes rounding to the nearest multiple of 10 ^ (-6), and the claim is
settled within that rounding tolerance. -/

/-- round(x, 6) of the source: round to 6 decimal places. -/
def round6 (x : ℚ) : ℚ := ((round (x * 1000000) : ℤ) : ℚ) / 1000000

/-- DeviceTypeInterface._calculate_cumulative_kwh on the success path:
energy of one interval added to the previous cumulative total, rounded
to 6 decimal places. -/
def calculate_cumulative_kwh (previous_kwh current_power interval_seconds : ℚ) : ℚ :=
  round6 (previous_kwh + current_power / 1000 * (interval_seconds / 3600))

/-- The exact (unrounded) energy consumed in one interval. -/
def kwh_increment (current_power interval_seconds : ℚ) : ℚ :=
  current_power / 1000 * (interval_seconds / 3600)

/-- Cumulative kwh recorded with the n-th sample of one device at fixed
power and interval: 0 before the first sample (no previous measurement),
then each sample adds one interval of energy to the previous stored
value. -/
def kwh_after (current_power interval_seconds : ℚ) : ℕ → ℚ
  | 0 => 0
  | n + 1 =>
    calculate_cumulative_kwh (kwh_after current_power interval_seconds n)
      current_power interval_seconds

lemma round6_abs_sub (x : ℚ) : |round6 x - x| ≤ 1 / 2000000 := by
  have h : round6 x - x = ((round (x * 1000000) : ℤ) - x * 1000000) / 1000000 := by
    unfold round6
    field_simp
    ring
  rw [h, abs_div, abs_sub_comm]
  rw [show |(1000000 : ℚ)| = 1000000 by norm_num]
  have h2 := abs_sub_round (x * 1000000)
  linarith

lemma round6_int_div (x : ℚ) : ∃ m : ℤ, round6 x = (m : ℚ) / 1000000 :=
  ⟨round (x * 1000000), rfl⟩

lemma round6_ge_of_int_div (x y : ℚ) (m : ℤ) (hx : x = (m : ℚ) / 1000000)
    (hy : 0 ≤ y) : x ≤ round6 (x + y) := by
  have hxm : (x + y) * 1000000 = (m : ℚ) + y * 1000000 := by
    rw [hx]
    field_simp
  have hy6 : (0 : ℚ) ≤ y * 1000000 := by positivity
  have hmono : (m : ℤ) ≤ round ((m : ℚ) + y * 1000000) := by
    have h3 : round ((m : ℚ)) ≤ round ((m : ℚ) + y * 1000000) := by
      rw [round_eq, round_eq]
      exact Int.floor_mono (by linarith)
    rwa [round_intCast] at h3
  unfold round6
  rw [hxm, hx]
  exact (div_le_div_iff_of_pos_right (by norm_num)).mpr (Int.cast_le.mpr hmono)

lemma kwh_after_int_div (P I : ℚ) (n : ℕ) :
    ∃ m : ℤ, kwh_after P I n = (m : ℚ) / 1000000 := by
  cases n with
  | zero => exact ⟨0, by simp [kwh_after]⟩
  | succ n => exact round6_int_div _

lemma kwh_after_bound (P I : ℚ) (n : ℕ) :
    |kwh_after P I n - n * kwh_increment P I| ≤ (n : ℚ) / 2000000 := by
  induction n with
  | zero => simp [kwh_after]
  | succ n ih =>
    have hstep : kwh_after P I (n + 1) =
        round6 (kwh_after P I n + kwh_increment P I) := rfl
    have hr := round6_abs_sub (kwh_after P I n + kwh_increment P I)
    have hsplit : kwh_after P I (n + 1) - (n + 1 : ℕ) * kwh_increment P I =
        (round6 (kwh_after P I n + kwh_increment P I) -
          (kwh_after P I n + kwh_increment P I)) +
        (kwh_after P I n - n * kwh_increment P I) := by
      rw [hstep]
      push_cast
      ring
    rw [hsplit]
    calc |_ + _| ≤ _ + _ := abs_add _ _
      _ ≤ 1 / 2000000 + (n : ℚ) / 2000000 := by linarith
      _ = ((n + 1 : ℕ) : ℚ) / 2000000 := by push_cast; ring

lemma kwh_after_mono (P I : ℚ) (hP : 0 ≤ P) (hI : 0 ≤ I) (n : ℕ) :
    kwh_after P I n ≤ kwh_after P I (n + 1) := by
  obtain ⟨m, hm⟩ := kwh_after_int_div P I n
  have hinc : 0 ≤ kwh_increment P I := by
    unfold kwh_increment
    positivity
  exact round6_ge_of_int_div _ _ m hm hinc

/-- C5: for a device with no prior measurements sampled at fixed power P and
fixed interval I, the cumulative kwh starts from 0, after the n-th sample it
equals n times P/1000 times I/3600 up to the accumulated rounding tolerance
of the 6-decimal rounding, and the sequence is monotonically
non-decreasing. -/
theorem kwh_cumulative_spec (P I : ℚ) (hP : 0 ≤ P) (hI : 0 ≤ I) :
    kwh_after P I 0 = 0 ∧
    (∀ n : ℕ, |kwh_after P I n - n * kwh_increment P I| ≤ (n : ℚ) / 2000000) ∧
    (∀ n : ℕ, kwh_after P I n ≤ kwh_after P I (n + 1)) :=
  ⟨rfl, kwh_after_bound P I, kwh_after_mono P I hP hI⟩

theorem kwh_cumulative_spec_witness :
    (0 : ℚ) ≤ 230 ∧ (0 : ℚ) ≤ 5 ∧
    (kwh_after 230 5 0 = 0 ∧
     (∀ n : ℕ, |kwh_after 230 5 n - n * kwh_increment 230 5| ≤ (n : ℚ) / 2000000) ∧
     (∀ n : ℕ, kwh_after 230 5 n ≤ kwh_after 230 5 (n + 1))) :=
  ⟨by norm_num, by norm_num, kwh_cumulative_spec 230 5 (by norm_num) (by norm_num)⟩

/-! ## Reconnection loop lemmas -/

lemma reconnect_finalize_attempts (s : MqttClient) :
    (reconnect_finalize s).reconnect_attempts = s.reconnect_attempts := by
  unfold reconnect_finalize
  split <;> rfl

lemma reconnect_finalize_auto (s : MqttClient)
    (h : max_reconnect_attempts ≤ (reconnect_finalize s).reconnect_attempts) :
    (reconnect_finalize s).auto_reconnect = false := by
  rw [reconnect_finalize_attempts] at h
  unfold reconnect_finalize
  rw [if_pos h]

lemma reconnect_loop_count_le (os : List Bool) (s : MqttClient) :
    (reconnect_loop s os).2 ≤ max_reconnect_attempts - s.reconnect_attempts := by
  induction os generalizing s with
  | nil => exact Nat.zero_le _
  | cons ok rest ih =>
    rw [reconnect_loop]
    by_cases hg : s.connected = false ∧ s.auto_reconnect = true ∧
        s.reconnect_attempts < max_reconnect_attempts
    · rw [if_pos hg]
      have hlt : s.reconnect_attempts < 50 := hg.2.2
      cases ok with
      | true =>
        show 1 ≤ max_reconnect_attempts - s.reconnect_attempts
        show 1 ≤ 50 - s.reconnect_attempts
        omega
      | false =>
        show (reconnect_loop
            { s with reconnect_attempts := s.reconnect_attempts + 1 } rest).2 + 1 ≤
          max_reconnect_attempts - s.reconnect_attempts
        have h2 : (reconnect_loop
            { s with reconnect_attempts := s.reconnect_attempts + 1 } rest).2 ≤
            50 - (s.reconnect_attempts + 1) :=
          ih { s with reconnect_attempts := s.reconnect_attempts + 1 }
        show (reconnect_loop
            { s with reconnect_attempts := s.reconnect_attempts + 1 } rest).2 + 1 ≤
          50 - s.reconnect_attempts
        omega
    · rw [if_neg hg]
      exact Nat.zero_le _

lemma reconnect_loop_exhaust_auto (os : List Bool) (s : MqttClient) :
    max_reconnect_attempts ≤ (reconnect_loop s os).1.reconnect_attempts →
    (reconnect_loop s os).1.auto_reconnect = false := by
  induction os generalizing s with
  | nil =>
    intro h
    exact reconnect_finalize_auto s h
  | cons ok rest ih =>
    intro h
    rw [reconnect_loop] at h ⊢
    by_cases hg : s.connected = false ∧ s.auto_reconnect = true ∧
        s.reconnect_attempts < max_reconnect_attempts
    · rw [if_pos hg] at h ⊢
      cases ok with
      | true =>
        have h2 : max_reconnect_attempts ≤ (0 : ℕ) := h
        exact absurd h2 (by decide)
      | false =>
        exact ih { s with reconnect_attempts := s.reconnect_attempts + 1 } h
    · rw [if_neg hg] at h ⊢
      exact reconnect_finalize_auto s h

lemma reconnect_loop_success (s : MqttClient) (rest : List Bool)
    (hc : s.connected = false) (ha : s.auto_reconnect = true)
    (hn : s.reconnect_attempts < max_reconnect_attempts) :
    reconnect_loop s (true :: rest) =
      ({ s with connected := true, reconnect_attempts := 0,
                reconnect_delay := 5 }, 1) := by
  rw [reconnect_loop, if_pos ⟨hc, ha, hn⟩]
  rfl

lemma reconnect_loop_disabled (os : List Bool) (s : MqttClient)
    (ha : s.auto_reconnect = false) :
    reconnect_loop s os = (reconnect_finalize s, 0) := by
  cases os with
  | nil => rfl
  | cons ok rest =>
    rw [reconnect_loop, if_neg]
    intro hg
    rw [ha] at hg
    exact Bool.false_ne_true hg.2.1

lemma on_disconnect_disabled (s : MqttClient) (rc : ℕ)
    (ha : s.auto_reconnect = false) : (on_disconnect s rc).2 = false := by
  unfold on_disconnect
  rw [if_neg]
  intro hg
  rw [show ({ s with connected := false } : MqttClient).auto_reconnect =
    s.auto_reconnect from rfl, ha] at hg
  exact Bool.false_ne_true hg.2.1

/-! ## Registration lemmas -/

lemma strStart_100_reg (name : String) :
    strStart "100," ("100," ++ name ++ ",c8y_MQTTDevice") = true := by
  unfold strStart
  simp only [String.data_append,
    show ("100," : String).data = ['1', '0', '0', ','] from rfl,
    List.cons_append, List.append_assoc, charsStart]
  simp only [show (('1' : Char) == '1') = true from rfl,
    show (('0' : Char) == '0') = true from rfl,
    show ((',' : Char) == ',') = true from rfl, Bool.true_and]

lemma strStart_100_hw (d : String) :
    strStart "100," ("110," ++ d ++ ",IoT Simulator Model,v1.0") = false := by
  unfold strStart
  simp only [String.data_append,
    show ("100," : String).data = ['1', '0', '0', ','] from rfl,
    show ("110," : String).data = ['1', '1', '0', ','] from rfl,
    List.cons_append, List.append_assoc, charsStart]
  simp only [show (('1' : Char) == '1') = true from rfl,
    show (('0' : Char) == '1') = false from rfl, Bool.true_and, Bool.false_and]

lemma strStart_100_ops : strStart "100," "114,c8y_Restart,c8y_Configuration" = false := rfl

lemma get_registration_status_some (s : MqttClient) (d : String)
    (e : RegistrationEntry) (h : s.reg_file d = some e) :
    get_registration_status s d = e.cumulocity_registered := by
  unfold get_registration_status
  rw [h]

/-- The registration branch of register_device for an unregistered device
with a successful publish. -/
lemma register_device_not_registered (s : MqttClient) (d ty name now : String)
    (h : get_registration_status s d = false) :
    register_device s d ty name false true now =
      ({ s with registered := true,
                reg_file := updateFn s.reg_file d (some ⟨true, name, now⟩),
                published := s.published ++
                  [("s/us", "100," ++ name ++ ",c8y_MQTTDevice"),
                   ("s/us", "110," ++ d ++ ",IoT Simulator Model,v1.0"),
                   ("s/us", "114,c8y_Restart,c8y_Configuration")],
                subscriptions := s.subscriptions ++ ["s/ds"] }, true) := by
  unfold register_device
  rw [if_neg (by simp [h])]
  simp [List.append_assoc]

/-- The short-circuit branch of register_device for an already registered
device. -/
lemma register_device_already (s : MqttClient) (d ty name : String)
    (ack : Bool) (now : String) (h : get_registration_status s d = true) :
    register_device s d ty name false ack now =
      ({ s with registered := true,
                subscriptions := s.subscriptions ++ ["s/ds"] }, true) := by
  unfold register_device
  rw [if_pos ⟨rfl, h⟩]

/-! ## Frame lemmas for the manager operations -/

lemma save_db_config_devices (s : DeviceManager) (a b c : String) :
    (save_db_config s a b c).devices = s.devices := rfl

lemma save_db_config_statuses (s : DeviceManager) (a b c : String) :
    (save_db_config s a b c).device_statuses = s.device_statuses := rfl

lemma save_db_config_file (s : DeviceManager) (a b c : String) :
    (save_db_config s a b c).file_devices = s.file_devices := rfl

/-- A manager whose persistence backend is the PostgreSQL one (so that
hasattr(db, save_device_config) holds). -/
def pgManager : DeviceManager := { emptyManager with has_db_config := true }

/-! ## C4 -/

/-- C4: after the supervisor reloads the persisted status file, every record
stored with status active comes back with status stopped (all other fields
kept), and no reloaded record has status active. -/
theorem load_reconciles_active (f : String → Option PersistedDevice)
    (d : String) (r : PersistedDevice) :
    (f d = some r → r.status = "active" →
      load_device_statuses f d = some ⟨d, r.device_type, "stopped", r.created_at⟩) ∧
    (∀ r2, load_device_statuses f d = some r2 → r2.status ≠ "active") := by
  constructor
  · intro hf hs
    unfold load_device_statuses
    rw [hf]
    simp [hs]
  · intro r2 h2
    unfold load_device_statuses at h2
    cases hf : f d with
    | none =>
      rw [hf] at h2
      simp at h2
    | some r3 =>
      rw [hf] at h2
      simp at h2
      rw [← h2]
      show (if r3.status = "active" then "stopped" else r3.status) ≠ "active"
      split_ifs with hs
      · decide
      · exact hs

/-- A persisted status file holding one device that was saved as active. -/
def activeStatusFile : String → Option PersistedDevice :=
  updateFn (fun _ => none) "pv001" (some ⟨"PV", "active", "t0"⟩)

theorem load_reconciles_active_witness :
    activeStatusFile "pv001" = some ⟨"PV", "active", "t0"⟩ ∧
    (⟨"PV", "active", "t0"⟩ : PersistedDevice).status = "active" ∧
    load_device_statuses activeStatusFile "pv001" =
      some ⟨"pv001", "PV", "stopped", "t0"⟩ ∧
    (⟨"pv001", "PV", "stopped", "t0"⟩ : DeviceStatus).status ≠ "active" :=
  ⟨rfl, rfl,
   (load_reconciles_active activeStatusFile "pv001" ⟨"PV", "active", "t0"⟩).1 rfl rfl,
   (load_reconciles_active activeStatusFile "pv001" ⟨"PV", "active", "t0"⟩).2
     ⟨"pv001", "PV", "stopped", "t0"⟩
     ((load_reconciles_active activeStatusFile "pv001" ⟨"PV", "active", "t0"⟩).1 rfl rfl)⟩

/-! ## C7 -/

/-- C7: stop_device on a device id with no recorded ProcessHandle returns
false without touching the in-memory records or the status file (the
operation is total, hence never throws), still writes the stopped status to
the SQL store when that backend is present, and the status observable
through get_device_status remains stopped. -/
theorem stop_device_idempotent_stopped (s : DeviceManager) (d now : String)
    (h : s.devices d = none) :
    (stop_device s d).2 = false ∧
    (stop_device s d).1.devices = s.devices ∧
    (stop_device s d).1.device_statuses = s.device_statuses ∧
    (stop_device s d).1.file_devices = s.file_devices ∧
    (get_device_status (stop_device s d).1 d now).2.status = "stopped" ∧
    (s.has_db_config = true →
      (stop_device s d).1.db_config d = some (get_type_name_from_id d, "stopped")) := by
  have hbranch : stop_device s d =
      (save_db_config s d (get_type_name_from_id d) "stopped", false) := by
    unfold stop_device
    rw [h]
  rw [hbranch]
  have hdev : (save_db_config s d (get_type_name_from_id d) "stopped").devices d = none := by
    rw [save_db_config_devices]
    exact h
  refine ⟨rfl, save_db_config_devices s _ _ _, save_db_config_statuses s _ _ _,
    save_db_config_file s _ _ _, ?_, ?_⟩
  · cases hst : (save_db_config s d (get_type_name_from_id d) "stopped").device_statuses d with
    | none => simp [get_device_status, hdev, hst]
    | some r => simp [get_device_status, hdev, hst]
  · intro hdb
    unfold save_db_config
    rw [if_pos hdb]
    simp [updateFn]

theorem stop_device_idempotent_stopped_witness :
    pgManager.devices "pv001" = none ∧
    ((stop_device pgManager "pv001").2 = false ∧
     (stop_device pgManager "pv001").1.devices = pgManager.devices ∧
     (stop_device pgManager "pv001").1.device_statuses = pgManager.device_statuses ∧
     (stop_device pgManager "pv001").1.file_devices = pgManager.file_devices ∧
     (get_device_status (stop_device pgManager "pv001").1 "pv001" "t9").2.status = "stopped" ∧
     (pgManager.has_db_config = true →
       (stop_device pgManager "pv001").1.db_config "pv001" =
         some (get_type_name_from_id "pv001", "stopped"))) :=
  ⟨rfl, stop_device_idempotent_stopped pgManager "pv001" "t9" rfl⟩

/-! ## C9 -/

lemma add_device_statuses (s : DeviceManager) (ty now : String) :
    (add_device s ty now).1.device_statuses =
      updateFn s.device_statuses (add_device s ty now).2
        (some ⟨(add_device s ty now).2, ty, "stopped", now⟩) := rfl

/-- C9: add_device is total on the device type string; for a type absent
from the registry it falls back to the dedicated unknown counter, returns
the identifier unknown followed by the zero-padded counter, records a
DeviceRecord for it like any other device, and bumps the unknown
counter. -/
theorem add_device_unknown_total (s : DeviceManager) (ty now : String)
    (h : getTypeId ty = none) :
    (add_device s ty now).2 = "unknown" ++ pad3 (s.device_counters "unknown" + 1) ∧
    (add_device s ty now).1.device_statuses ((add_device s ty now).2) =
      some ⟨"unknown" ++ pad3 (s.device_counters "unknown" + 1), ty, "stopped", now⟩ ∧
    (add_device s ty now).1.device_counters "unknown" =
      s.device_counters "unknown" + 1 := by
  have hres : resolved_type_id ty = "unknown" := by
    unfold resolved_type_id
    rw [h]
    rfl
  have hid : (add_device s ty now).2 =
      "unknown" ++ pad3 (s.device_counters "unknown" + 1) := by
    rw [add_device_id, hres]
  refine ⟨hid, ?_, ?_⟩
  · rw [add_device_statuses, hid]
    simp [updateFn]
  · rw [add_device_counters, hres]
    simp [updateFn]

theorem add_device_unknown_total_witness :
    getTypeId "Washing Machine" = none ∧
    ((add_device emptyManager "Washing Machine" "t0").2 =
       "unknown" ++ pad3 (emptyManager.device_counters "unknown" + 1) ∧
     (add_device emptyManager "Washing Machine" "t0").1.device_statuses
         ((add_device emptyManager "Washing Machine" "t0").2) =
       some ⟨"unknown" ++ pad3 (emptyManager.device_counters "unknown" + 1),
             "Washing Machine", "stopped", "t0"⟩ ∧
     (add_device emptyManager "Washing Machine" "t0").1.device_counters "unknown" =
       emptyManager.device_counters "unknown" + 1) :=
  ⟨rfl, add_device_unknown_total emptyManager "Washing Machine" "t0" rfl⟩

/-! ## C10 -/

/-- C10: get_device_status is not read-only: for an id with a stored record
it overwrites that record's status in place with the liveness recomputed
from the handle map, leaving every other field and every other record
unchanged, so that a subsequent save_device_status persists the recomputed
value. -/
theorem get_device_status_mutates (s : DeviceManager) (d now : String)
    (r : DeviceStatus) (h : s.device_statuses d = some r) :
    (get_device_status s d now).2 =
      { r with status := if (s.devices d).getD false then "active" else "stopped" } ∧
    (get_device_status s d now).1.device_statuses d =
      some { r with status := if (s.devices d).getD false then "active" else "stopped" } ∧
    (∀ d2, d2 ≠ d → (get_device_status s d now).1.device_statuses d2 = s.device_statuses d2) ∧
    (get_device_status s d now).1.devices = s.devices ∧
    (get_device_status s d now).1.device_counters = s.device_counters ∧
    (save_device_status (get_device_status s d now).1).file_devices d =
      some ⟨r.device_type,
            if (s.devices d).getD false then "active" else "stopped",
            r.created_at⟩ := by
  have hbranch : get_device_status s d now =
      ({ s with device_statuses := updateFn s.device_statuses d (some { r with status := if (s.devices d).getD false then "active" else "stopped" }) },
       { r with status := if (s.devices d).getD false then "active" else "stopped" }) := by
    unfold get_device_status
    rw [h]
  rw [hbranch]
  refine ⟨rfl, ?_, ?_, rfl, rfl, ?_⟩
  · simp [updateFn]
  · intro d2 hne
    simp [updateFn, hne]
  · unfold save_device_status
    simp [updateFn]

/-- The manager after adding pv001 and starting it. -/
def runningManager : DeviceManager :=
  (start_device (add_device emptyManager "PV" "t0").1 "pv001" true).1

theorem get_device_status_mutates_witness :
    runningManager.device_statuses "pv001" = some ⟨"pv001", "PV", "stopped", "t0"⟩ ∧
    ((get_device_status runningManager "pv001" "t9").2 =
       { (⟨"pv001", "PV", "stopped", "t0"⟩ : DeviceStatus) with
         status := if (runningManager.devices "pv001").getD false then "active" else "stopped" } ∧
     (get_device_status runningManager "pv001" "t9").1.device_statuses "pv001" =
       some { (⟨"pv001", "PV", "stopped", "t0"⟩ : DeviceStatus) with
         status := if (runningManager.devices "pv001").getD false then "active" else "stopped" } ∧
     (∀ d2, d2 ≠ "pv001" →
       (get_device_status runningManager "pv001" "t9").1.device_statuses d2 =
         runningManager.device_statuses d2) ∧
     (get_device_status runningManager "pv001" "t9").1.devices = runningManager.devices ∧
     (get_device_status runningManager "pv001" "t9").1.device_counters =
       runningManager.device_counters ∧
     (save_device_status (get_device_status runningManager "pv001" "t9").1).file_devices
         "pv001" =
       some ⟨(⟨"pv001", "PV", "stopped", "t0"⟩ : DeviceStatus).device_type,
             if (runningManager.devices "pv001").getD false then "active" else "stopped",
             (⟨"pv001", "PV", "stopped", "t0"⟩ : DeviceStatus).created_at⟩) :=
  ⟨by decide,
   get_device_status_mutates runningManager "pv001" "t9"
     ⟨"pv001", "PV", "stopped", "t0"⟩ (by decide)⟩

/-! ## C1 -/

/-- C1 fails on the code: after adding pv001 (status stopped) and starting
it successfully, start_device has returned true but both the in-memory
DeviceStatus and the record persisted to the status file still carry status
stopped, not active: start_device never assigns the active status to the
stored record before persisting. -/
theorem start_device_stale_status_cex :
    (start_device (add_device emptyManager "PV" "t0").1 "pv001" true).2 = true ∧
    ((start_device (add_device emptyManager "PV" "t0").1 "pv001" true).1.device_statuses
        "pv001").map DeviceStatus.status = some "stopped" ∧
    ((start_device (add_device emptyManager "PV" "t0").1 "pv001" true).1.file_devices
        "pv001").map PersistedDevice.status = some "stopped" ∧
    some ("stopped" : String) ≠ some ("active" : String) :=
  ⟨by decide, by decide, by decide, by decide⟩

/-- C1 amended: a successful start_device call on an id with no live
ProcessHandle spawns the worker and records the handle, and rewrites the
status file, but it leaves every in-memory DeviceStatus record unchanged,
so the file keeps the record's previous status (it does not persist
active); the SQL config store, when present, does receive active, and the
active status is observable through get_device_status, which recomputes it
from the recorded handle. -/
theorem start_device_spawns_and_records (s : DeviceManager) (d now : String)
    (h : (s.devices d).getD false = false) :
    (start_device s d true).2 = true ∧
    (start_device s d true).1.devices d = some true ∧
    (start_device s d true).1.device_statuses = s.device_statuses ∧
    (start_device s d true).1.file_devices d =
      (s.device_statuses d).map (fun r => ⟨r.device_type, r.status, r.created_at⟩) ∧
    (get_device_status (start_device s d true).1 d now).2.status = "active" ∧
    (s.has_db_config = true →
      (start_device s d true).1.db_config d =
        some (get_type_name_from_id d, "active")) := by
  have hbranch : start_device s d true =
      (save_device_status (save_db_config { s with devices := updateFn s.devices d (some true) } d (get_type_name_from_id d) "active"), true) := by
    unfold start_device
    rw [if_neg (by simp [h])]
    rw [if_pos rfl]
  rw [hbranch]
  have hdev : (save_device_status (save_db_config { s with devices := updateFn s.devices d (some true) } d (get_type_name_from_id d) "active")).devices d = some true := by
    show updateFn s.devices d (some true) d = some true
    simp [updateFn]
  refine ⟨rfl, hdev, rfl, ?_, ?_, ?_⟩
  · rfl
  · cases hst : (save_device_status (save_db_config { s with devices := updateFn s.devices d (some true) } d (get_type_name_from_id d) "active")).device_statuses d with
    | none => simp [get_device_status, hdev, hst]
    | some r => simp [get_device_status, hdev, hst]
  · intro hdb
    show (if s.has_db_config then updateFn s.db_config d (some (get_type_name_from_id d, "active")) else s.db_config) d = _
    rw [if_pos hdb]
    simp [updateFn]

theorem start_device_spawns_and_records_witness :
    ((runningManager.devices "heatpump001").getD false = false) ∧
    ((start_device runningManager "heatpump001" true).2 = true ∧
     (start_device runningManager "heatpump001" true).1.devices "heatpump001" = some true ∧
     (start_device runningManager "heatpump001" true).1.device_statuses =
       runningManager.device_statuses ∧
     (start_device runningManager "heatpump001" true).1.file_devices "heatpump001" =
       (runningManager.device_statuses "heatpump001").map
         (fun r => ⟨r.device_type, r.status, r.created_at⟩) ∧
     (get_device_status (start_device runningManager "heatpump001" true).1
         "heatpump001" "t9").2.status = "active" ∧
     (runningManager.has_db_config = true →
       (start_device runningManager "heatpump001" true).1.db_config "heatpump001" =
         some (get_type_name_from_id "heatpump001", "active"))) :=
  ⟨by decide, start_device_spawns_and_records runningManager "heatpump001" "t9" (by decide)⟩

/-! ## C2 -/

/-- C2 fails on the code: registering pv001 with device type PV publishes
the payload 100,iot_sim_pv001,c8y_MQTTDevice, whose third field is the
hardcoded remote type c8y_MQTTDevice, not the device type PV passed to the
call. -/
theorem register_message_hardcoded_cex :
    (register_device mqttInit "pv001" "PV" "iot_sim_pv001" false true "t").1.published =
      [("s/us", "100,iot_sim_pv001,c8y_MQTTDevice"),
       ("s/us", "110,pv001,IoT Simulator Model,v1.0"),
       ("s/us", "114,c8y_Restart,c8y_Configuration")] ∧
    ("100,iot_sim_pv001,c8y_MQTTDevice" : String) ≠ "100,iot_sim_pv001,PV" :=
  ⟨by decide, by decide⟩

/-- C2 amended: for every device name and device type, the registration
payload published by register_device is the string 100, followed by the
device name, followed by the literal ,c8y_MQTTDevice - independent of the
device type argument, which the source accepts but never uses. -/
theorem register_message_format (s : MqttClient)
    (device_id device_type device_name : String) (ack_ok : Bool) (now : String) :
    ((register_device s device_id device_type device_name true ack_ok now).1.published.drop
        s.published.length).head? =
      some ("s/us", "100," ++ device_name ++ ",c8y_MQTTDevice") := by
  unfold register_device
  rw [if_neg (by simp)]
  cases ack_ok with
  | true =>
    show (((s.published ++ [("s/us", "100," ++ device_name ++ ",c8y_MQTTDevice")]) ++ _).drop s.published.length).head? = _
    rw [List.append_assoc, List.drop_left]
    rfl
  | false =>
    show ((s.published ++ [("s/us", "100," ++ device_name ++ ",c8y_MQTTDevice")]).drop s.published.length).head? = _
    rw [List.drop_left]
    rfl

/-! ## C3 -/

/-- C3: for a connected session whose device id has no registration record,
calling register_device twice with force false performs the registration
publish exactly once: the first call publishes the 100 payload (plus the
metadata payloads) and persists the idempotency record keyed by the device
id, and the second call reads that record, publishes nothing more, still
subscribes to the command channel again, and returns true. -/
theorem register_twice_publishes_once (s : MqttClient)
    (d ty name now1 now2 : String)
    (h : get_registration_status s d = false) :
    (register_device s d ty name false true now1).2 = true ∧
    get_registration_status (register_device s d ty name false true now1).1 d = true ∧
    (register_device (register_device s d ty name false true now1).1
        d ty name false true now2).2 = true ∧
    (register_device (register_device s d ty name false true now1).1
        d ty name false true now2).1.published =
      s.published ++
        [("s/us", "100," ++ name ++ ",c8y_MQTTDevice"),
         ("s/us", "110," ++ d ++ ",IoT Simulator Model,v1.0"),
         ("s/us", "114,c8y_Restart,c8y_Configuration")] ∧
    ((register_device (register_device s d ty name false true now1).1
        d ty name false true now2).1.published.drop s.published.length).countP
      (fun m => strStart "100," m.2) = 1 ∧
    (register_device (register_device s d ty name false true now1).1
        d ty name false true now2).1.subscriptions =
      s.subscriptions ++ ["s/ds", "s/ds"] := by
  have h1 := register_device_not_registered s d ty name now1 h
  have hreg : get_registration_status (register_device s d ty name false true now1).1 d = true := by
    rw [h1]
    exact get_registration_status_some _ d ⟨true, name, now1⟩ (by simp [updateFn])
  have h2 := register_device_already (register_device s d ty name false true now1).1
    d ty name true now2 hreg
  refine ⟨by rw [h1], hreg, by rw [h2], ?_, ?_, ?_⟩
  · rw [h2]
    show (register_device s d ty name false true now1).1.published = _
    rw [h1]
  · rw [h2]
    show ((register_device s d ty name false true now1).1.published.drop
      s.published.length).countP (fun m => strStart "100," m.2) = 1
    rw [h1]
    show ((s.published ++ [("s/us", "100," ++ name ++ ",c8y_MQTTDevice"), ("s/us", "110," ++ d ++ ",IoT Simulator Model,v1.0"), ("s/us", "114,c8y_Restart,c8y_Configuration")]).drop s.published.length).countP (fun m => strStart "100," m.2) = 1
    rw [List.drop_left]
    simp [List.countP_cons, strStart_100_reg, strStart_100_hw, strStart_100_ops]
  · rw [h2]
    show (register_device s d ty name false true now1).1.subscriptions ++ ["s/ds"] = _
    rw [h1]
    show (s.subscriptions ++ ["s/ds"]) ++ ["s/ds"] = _
    rw [List.append_assoc]
    rfl

theorem register_twice_publishes_once_witness :
    get_registration_status mqttInit "pv001" = false ∧
    ((register_device mqttInit "pv001" "PV" "iot_sim_pv001" false true "t1").2 = true ∧
     get_registration_status
       (register_device mqttInit "pv001" "PV" "iot_sim_pv001" false true "t1").1 "pv001" = true ∧
     (register_device (register_device mqttInit "pv001" "PV" "iot_sim_pv001" false true "t1").1
         "pv001" "PV" "iot_sim_pv001" false true "t2").2 = true ∧
     (register_device (register_device mqttInit "pv001" "PV" "iot_sim_pv001" false true "t1").1
         "pv001" "PV" "iot_sim_pv001" false true "t2").1.published =
       mqttInit.published ++
         [("s/us", "100," ++ "iot_sim_pv001" ++ ",c8y_MQTTDevice"),
          ("s/us", "110," ++ "pv001" ++ ",IoT Simulator Model,v1.0"),
          ("s/us", "114,c8y_Restart,c8y_Configuration")] ∧
     ((register_device (register_device mqttInit "pv001" "PV" "iot_sim_pv001" false true "t1").1
         "pv001" "PV" "iot_sim_pv001" false true "t2").1.published.drop
       mqttInit.published.length).countP (fun m => strStart "100," m.2) = 1 ∧
     (register_device (register_device mqttInit "pv001" "PV" "iot_sim_pv001" false true "t1").1
         "pv001" "PV" "iot_sim_pv001" false true "t2").1.subscriptions =
       mqttInit.subscriptions ++ ["s/ds", "s/ds"]) :=
  ⟨rfl, register_twice_publishes_once mqttInit "pv001" "PV" "iot_sim_pv001" "t1" "t2" rfl⟩

/-! ## C6 -/

/-- C6: two consecutive add_device calls with the same registered type
return identifiers made of the type id and the zero-padded strictly
increasing counter, the second differing from the first; and any session of
add_device calls, from any manager state, returns pairwise distinct
identifiers. -/
theorem add_device_ids_unique :
    (∀ (s : DeviceManager) (ty now1 now2 tid : String),
      getTypeId ty = some tid →
      (add_device s ty now1).2 = tid ++ pad3 (s.device_counters tid + 1) ∧
      (add_device (add_device s ty now1).1 ty now2).2 =
        tid ++ pad3 (s.device_counters tid + 2) ∧
      (add_device s ty now1).2 ≠ (add_device (add_device s ty now1).1 ty now2).2) ∧
    (∀ (s : DeviceManager) (calls : List (String × String)),
      (add_device_run s calls).Nodup) := by
  constructor
  · intro s ty now1 now2 tid h
    have hres : resolved_type_id ty = tid := by
      unfold resolved_type_id
      rw [h]
      rfl
    have htid : tid ∈ type_ids := hres ▸ resolved_type_id_mem ty
    have hc : (add_device s ty now1).1.device_counters tid =
        s.device_counters tid + 1 := by
      rw [add_device_counters, hres]
      simp [updateFn]
    have hone : (add_device s ty now1).2 = tid ++ pad3 (s.device_counters tid + 1) := by
      rw [add_device_id, hres]
    have htwo : (add_device (add_device s ty now1).1 ty now2).2 =
        tid ++ pad3 (s.device_counters tid + 2) := by
      rw [add_device_id, hres, hc]
    refine ⟨hone, htwo, ?_⟩
    rw [hone, htwo]
    intro hEq
    have := (type_id_append_inj htid htid hEq).2
    omega
  · exact fun s calls => add_device_run_nodup calls s

theorem add_device_ids_unique_witness :
    getTypeId "PV" = some "pv" ∧
    ((add_device emptyManager "PV" "t1").2 =
       "pv" ++ pad3 (emptyManager.device_counters "pv" + 1) ∧
     (add_device (add_device emptyManager "PV" "t1").1 "PV" "t2").2 =
       "pv" ++ pad3 (emptyManager.device_counters "pv" + 2) ∧
     (add_device emptyManager "PV" "t1").2 ≠
       (add_device (add_device emptyManager "PV" "t1").1 "PV" "t2").2) ∧
    (add_device_run emptyManager
      [("PV", "t1"), ("PV", "t2"), ("Heat Pump", "t3"), ("Toaster", "t4")]).Nodup :=
  ⟨rfl, add_device_ids_unique.1 emptyManager "PV" "t1" "t2" "pv" rfl,
   add_device_ids_unique.2 emptyManager
     [("PV", "t1"), ("PV", "t2"), ("Heat Pump", "t3"), ("Toaster", "t4")]⟩

/-! ## C8 -/

/-- C8: every run of the reconnection loop makes at most 50 minus the
starting counter attempts (so the attempt count never exceeds the maximum
of 50); a successful reconnection resets the attempt counter to 0 and the
backoff delay to the 5 second base and leaves the loop; whenever a run ends
with the attempt counter at the maximum the loop disables auto_reconnect;
and once auto_reconnect is off, a further run makes no attempt at all and
the disconnect callback does not start the loop, until
enable_auto_reconnect is invoked externally. -/
theorem reconnect_loop_bounded :
    (∀ (s : MqttClient) (outcomes : List Bool),
      (reconnect_loop s outcomes).2 ≤
        max_reconnect_attempts - s.reconnect_attempts) ∧
    (∀ (s : MqttClient) (rest : List Bool),
      s.connected = false → s.auto_reconnect = true →
      s.reconnect_attempts < max_reconnect_attempts →
      reconnect_loop s (true :: rest) =
        ({ s with connected := true, reconnect_attempts := 0,
                  reconnect_delay := 5 }, 1)) ∧
    (∀ (s : MqttClient) (outcomes : List Bool),
      max_reconnect_attempts ≤ (reconnect_loop s outcomes).1.reconnect_attempts →
      (reconnect_loop s outcomes).1.auto_reconnect = false) ∧
    (∀ (s : MqttClient) (outcomes : List Bool) (rc : ℕ),
      s.auto_reconnect = false →
      reconnect_loop s outcomes = (reconnect_finalize s, 0) ∧
      (on_disconnect s rc).2 = false) :=
  ⟨fun s os => reconnect_loop_count_le os s,
   reconnect_loop_success,
   fun s os => reconnect_loop_exhaust_auto os s,
   fun s os rc ha => ⟨reconnect_loop_disabled os s ha, on_disconnect_disabled s rc ha⟩⟩

theorem reconnect_loop_bounded_witness :
    ((reconnect_loop mqttInit [true, false]).2 ≤
       max_reconnect_attempts - mqttInit.reconnect_attempts) ∧
    (mqttInit.connected = false ∧ mqttInit.auto_reconnect = true ∧
     mqttInit.reconnect_attempts < max_reconnect_attempts ∧
     reconnect_loop mqttInit (true :: [false]) =
       ({ mqttInit with connected := true, reconnect_attempts := 0,
                        reconnect_delay := 5 }, 1)) ∧
    (max_reconnect_attempts ≤
       (reconnect_loop { mqttInit with reconnect_attempts := 50 } []).1.reconnect_attempts ∧
     (reconnect_loop { mqttInit with reconnect_attempts := 50 } []).1.auto_reconnect = false) ∧
    ((enable_auto_reconnect mqttInit false).auto_reconnect = false ∧
     reconnect_loop (enable_auto_reconnect mqttInit false) [false] =
       (reconnect_finalize (enable_auto_reconnect mqttInit false), 0) ∧
     (on_disconnect (enable_auto_reconnect mqttInit false) 1).2 = false) :=
  ⟨reconnect_loop_bounded.1 mqttInit [true, false],
   ⟨rfl, rfl, by decide,
    reconnect_loop_bounded.2.1 mqttInit [false] rfl rfl (by decide)⟩,
   ⟨by decide,
    reconnect_loop_bounded.2.2.1 { mqttInit with reconnect_attempts := 50 } [] (by decide)⟩,
   ⟨rfl,
    (reconnect_loop_bounded.2.2.2 (enable_auto_reconnect mqttInit false) [false] 1 rfl).1,
    (reconnect_loop_bounded.2.2.2 (enable_auto_reconnect mqttInit false) [false] 1 rfl).2⟩⟩

end IoT
